import Mathlib

/-!
Verification of the FastCloud repository: a shallow embedding of the
admin user-management service, the shared core library (base model,
HTTP client retry loop, exception handlers) and the gateway monitoring
utilities, with theorems settling the specified claims.
-/

namespace FastCloud

/-! ## Python datetime model

`datetime.now()` values are modelled as a record of calendar fields.
`strftime "%Y-%m-%d %H:%M:%S"` and Python `str(datetime)` are embedded
as string builders; `str` includes a `.ffffff` microsecond suffix when
the microsecond field is nonzero, exactly as CPython renders it. -/

structure PyDateTime where
  year : Nat
  month : Nat
  day : Nat
  hour : Nat
  minute : Nat
  second : Nat
  microsecond : Nat
deriving DecidableEq, Repr

/-- Zero-pad the decimal rendering of `n` to `width` characters. -/
def padNum (width n : Nat) : String :=
  let s := toString n
  String.mk (List.replicate (width - s.length) '0') ++ s

/-- `datetime.strftime("%Y-%m-%d %H:%M:%S")`, used by the `Base` model
default factories in `core/base.py`. -/
def strftimeYmdHms (dt : PyDateTime) : String :=
  padNum 4 dt.year ++ "-" ++ padNum 2 dt.month ++ "-" ++ padNum 2 dt.day ++ " " ++
    padNum 2 dt.hour ++ ":" ++ padNum 2 dt.minute ++ ":" ++ padNum 2 dt.second

/-- Python `str(datetime)`: ISO-like with a space separator, appending
`.ffffff` when `microsecond ≠ 0`.  Used by the admin `update` handler. -/
def pyStrDatetime (dt : PyDateTime) : String :=
  padNum 4 dt.year ++ "-" ++ padNum 2 dt.month ++ "-" ++ padNum 2 dt.day ++ " " ++
    padNum 2 dt.hour ++ ":" ++ padNum 2 dt.minute ++ ":" ++ padNum 2 dt.second ++
    (if dt.microsecond = 0 then "" else "." ++ padNum 6 dt.microsecond)

/-- Checks that a string has the exact shape `YYYY-MM-DD HH:MM:SS`:
19 characters, digits in the date/time positions, the fixed separators
in between. -/
def isTimestampFormat (s : String) : Bool :=
  match s.toList with
  | [y1, y2, y3, y4, a, m1, m2, b, d1, d2, c, h1, h2, e, n1, n2, f, s1, s2] =>
      y1.isDigit && y2.isDigit && y3.isDigit && y4.isDigit && a = '-' &&
      m1.isDigit && m2.isDigit && b = '-' && d1.isDigit && d2.isDigit &&
      c = ' ' && h1.isDigit && h2.isDigit && e = ':' && n1.isDigit &&
      n2.isDigit && f = ':' && s1.isDigit && s2.isDigit
  | _ => false

/-! ## User model (`core/base.py`)

The `User` table row.  `created_time` and `updated_time` are strings,
set by default factories to `strftime("%Y-%m-%d %H:%M:%S")` of the
construction time. -/

structure User where
  id : Option Nat
  created_time : String
  updated_time : String
  name : String
  username : String
  password : String
  status : Bool
  description : Option String
  is_superuser : Bool
deriving DecidableEq, Repr

/-! ## Security utilities

Modelled from the spec: `core/security.py` is not under `src/`; §4.6
describes one-way salted password hashing with verification of a
plaintext candidate against the stored hash, and JWT creation embedding
subject and expiry under the configured secret and algorithm. -/

/-- Modelled from the spec: one-way password hashing
(`set_password_hash` in `core/security.py`, absent from `src/`).  The
model tags the input so that a hash is never equal to the plaintext it
was derived from. -/
def set_password_hash (password : String) : String :=
  "$pbkdf2$" ++ password

/-- Modelled from the spec: password verification
(`verify_password` in `core/security.py`, absent from `src/`): checks a
plaintext candidate against a stored hash. -/
def verify_password (plain_password hashed_password : String) : Bool :=
  hashed_password == set_password_hash plain_password

/-- JWT payload (`core/base.py` `JWTPayloadSchema`); `exp` is a
timestamp in seconds.  The unused optional fields (`iat`, `nbf`,
`jti`) are omitted: no code path sets them. -/
structure JWTPayloadSchema where
  sub : String
  exp : Nat
deriving DecidableEq, Repr

/-- Modelled from the spec: the JWT produced by `create_access_token`
(`core/security.py`, absent from `src/`), an opaque bearer credential
encoding the payload under the configured secret and algorithm. -/
structure Token where
  payload : JWTPayloadSchema
  secret : String
  algorithm : String
deriving DecidableEq, Repr

/-- Modelled from the spec: `create_access_token(payload)` encodes the
payload with the configured secret/algorithm. -/
def create_access_token (payload : JWTPayloadSchema) (secret algorithm : String) : Token :=
  { payload := payload, secret := secret, algorithm := algorithm }

/-- JWT response model (`core/base.py` `JWTOutSchema`); `expires_in` is
in seconds (`timedelta.total_seconds()` in the source). -/
structure JWTOutSchema where
  access_token : Token
  token_type : String
  expires_in : Nat
deriving DecidableEq, Repr

/-! ## Settings (`app/config.py`), the fields the admin API reads -/

structure Settings where
  SECRET_KEY : String
  ALGORITHM : String
  ACCESS_TOKEN_EXPIRE_MINUTES : Nat
  TOKEN_TYPE : String
deriving DecidableEq, Repr

/-! ## Admin user schemas

Modelled from the spec: `services/admin/app/schemas/user.py` is not
under `src/`; §4.14 gives an input schema (name, username, password,
optional status/description) and an output schema exposing every field
except `password`. -/

/-- Modelled from the spec: `UserInSchema` field values.  Unset
optional fields already carry their pydantic defaults
(`status = true`, `description = none`), mirroring attribute access on
a validated model. -/
structure UserInSchema where
  name : String
  username : String
  password : String
  status : Bool
  description : Option String
deriving DecidableEq, Repr

/-- Which fields were present in the request body
(pydantic `__fields_set__`); `model_dump(exclude_unset=True)` keeps
exactly these. -/
structure FieldsSet where
  name : Bool
  username : Bool
  password : Bool
  status : Bool
  description : Bool
deriving DecidableEq, Repr

/-- Modelled from the spec: `UserOutSchema` — every `User` field except
`password`. -/
structure UserOutSchema where
  id : Option Nat
  created_time : String
  updated_time : String
  name : String
  username : String
  status : Bool
  description : Option String
  is_superuser : Bool
deriving DecidableEq, Repr

/-- `UserOutSchema.model_validate(user)`: copy all fields but the
password. -/
def UserOutSchema.fromUser (u : User) : UserOutSchema :=
  { id := u.id, created_time := u.created_time, updated_time := u.updated_time,
    name := u.name, username := u.username, status := u.status,
    description := u.description, is_superuser := u.is_superuser }

/-- `existing_obj.sqlmodel_update(data.model_dump(exclude_unset=True))`:
overwrite exactly the fields present in the request body. -/
def sqlmodelUpdate (u : User) (data : UserInSchema) (fs : FieldsSet) : User :=
  { u with
    name := if fs.name then data.name else u.name,
    username := if fs.username then data.username else u.username,
    password := if fs.password then data.password else u.password,
    status := if fs.status then data.status else u.status,
    description := if fs.description then data.description else u.description }

/-! ## Database session model

The user table is a list of rows.  `db.get(User, id)` fetches by
primary key (first row with that id); committing an updated attached
row rewrites that row; `db.delete` removes it. -/

abbrev DB := List User

/-- `db.get(User, id)`. -/
def dbGet (db : DB) (id : Nat) : Option User :=
  db.find? (fun u => u.id == some id)

/-- Commit of an attached, mutated row: the row with this primary key
is replaced, every other row untouched. -/
def dbReplace (db : DB) (id : Nat) (row : User) : DB :=
  db.map (fun u => if u.id == some id then row else u)

/-- `db.delete(instance)` + commit: the row with this primary key is
removed. -/
def dbDelete (db : DB) (id : Nat) : DB :=
  db.filter (fun u => !(u.id == some id))

/-- Response envelope outcome of one admin handler, carrying either the
Error envelope message or the Success envelope payload.  Modelled from
the spec for the envelope shapes (`core/response.py` is absent from
`src/`). -/
inductive Resp (α : Type) where
  | error (message : String)
  | success (data : α)
deriving DecidableEq, Repr

/-! ## Admin user API handlers (`services/admin/app/api/user.py`) -/

/-- `POST /user` (`create`): reject when the username already exists,
otherwise hash the password, persist, return the created user without
the password.  `nextId` is the primary key the database assigns;
`now` is the construction time used by the `Base` default factories. -/
def createUser (db : DB) (data : UserInSchema) (nextId : Nat) (now : PyDateTime) :
    DB × Resp UserOutSchema :=
  match db.find? (fun u => u.username == data.username) with
  | some _ => (db, .error ("账号 " ++ data.username ++ " 已存在"))
  | none =>
      let hashed := set_password_hash data.password
      let obj : User :=
        { id := some nextId,
          created_time := strftimeYmdHms now,
          updated_time := strftimeYmdHms now,
          name := data.name, username := data.username, password := hashed,
          status := data.status, description := data.description,
          is_superuser := false }
      (db ++ [obj], .success (UserOutSchema.fromUser obj))

/-- `PUT /user/{id}` (`update`): Error when absent; Error when
superuser; otherwise merge the fields present in the body, set
`updated_time := str(datetime.now())`, commit, return the updated user. -/
def updateUser (db : DB) (id : Nat) (data : UserInSchema) (fs : FieldsSet)
    (now : PyDateTime) : DB × Resp UserOutSchema :=
  match dbGet db id with
  | none => (db, .error ("用户" ++ toString id ++ "不存在"))
  | some existing_obj =>
      if existing_obj.is_superuser then
        (db, .error "超级管理员不允许修改")
      else
        let merged := sqlmodelUpdate existing_obj data fs
        let row := { merged with updated_time := pyStrDatetime now }
        (dbReplace db id row, .success (UserOutSchema.fromUser row))

/-- `DELETE /user/{id}` (`delete`): Error when absent; Error when
superuser; otherwise remove the row and return the deleted user's
data. -/
def deleteUser (db : DB) (id : Nat) : DB × Resp UserOutSchema :=
  match dbGet db id with
  | none => (db, .error ("用户" ++ toString id ++ "不存在"))
  | some existing_obj =>
      if existing_obj.is_superuser then
        (db, .error "超级管理员不允许删除")
      else
        (dbDelete db id, .success (UserOutSchema.fromUser existing_obj))

/-- Outcome of `POST /login`: an Error envelope, the token wrapped in
the Success envelope, or (docs referer only) the raw token payload. -/
inductive LoginResult where
  | error (message : String)
  | successEnvelope (token : JWTOutSchema)
  | raw (token : JWTOutSchema)
deriving DecidableEq, Repr

/-- `POST /login`: look up by username; Error envelopes for missing
user / disabled user / wrong password; otherwise issue a JWT whose
subject is the stored username and whose expiry is
`now + ACCESS_TOKEN_EXPIRE_MINUTES` minutes (`now` in seconds).
`docsReferer` is whether the `referer` header contains `"docs"`, in
which case the token payload is returned unwrapped. -/
def login (db : DB) (username password : String) (S : Settings) (now : Nat)
    (docsReferer : Bool) : LoginResult :=
  match db.find? (fun u => u.username == username) with
  | none => .error "用户不存在"
  | some existing_obj =>
      if !existing_obj.status then .error "用户已禁用"
      else if !verify_password password existing_obj.password then .error "密码错误"
      else
        let exp := now + S.ACCESS_TOKEN_EXPIRE_MINUTES * 60
        let login_token : JWTOutSchema :=
          { access_token :=
              create_access_token { sub := existing_obj.username, exp := exp }
                S.SECRET_KEY S.ALGORITHM,
            token_type := S.TOKEN_TYPE,
            expires_in := S.ACCESS_TOKEN_EXPIRE_MINUTES * 60 }
        if docsReferer then .raw login_token else .successEnvelope login_token

/-! ## HTTP client retry loop (`core/http_client.py`)

`HttpClient._request_with_retry` loops `attempt` over
`range(retries + 1)`.  The environment is an oracle giving every
attempt's outcome: a transport error (`httpx.RequestError`) or a
response with a status code.  The embedding returns the number of
requests issued, the list of backoff sleeps performed (in seconds),
and the final result (a returned response or a raised transport
error). -/

inductive AttemptOutcome where
  | transportError (message : String)
  | response (status_code : Nat)
deriving DecidableEq, Repr

inductive RequestResult where
  | raised (message : String)
  | returned (status_code : Nat)
deriving DecidableEq, Repr

/-- The backoff before retrying after attempt `attempt`:
`0.1 * 2 ** attempt` seconds. -/
def backoff (attempt : Nat) : ℚ :=
  (1 / 10 : ℚ) * 2 ^ attempt

/-- The loop body of `_request_with_retry` from iteration `attempt`
onwards, where `remaining = retries - attempt` counts the attempts
still allowed after this one (so `attempt < retries` in the source is
`remaining ≠ 0` here).  A 5xx response with attempts remaining sleeps
and continues; any other response is returned.  A transport error with
attempts remaining sleeps and continues; on the last attempt it is
raised. -/
def requestLoop (outcomes : Nat → AttemptOutcome) :
    Nat → Nat → Nat × List ℚ × RequestResult
  | attempt, remaining =>
    match outcomes attempt, remaining with
    | .response s, r + 1 =>
        if 500 ≤ s then
          let rest := requestLoop outcomes (attempt + 1) r
          (rest.1 + 1, backoff attempt :: rest.2.1, rest.2.2)
        else
          (1, [], .returned s)
    | .response s, 0 => (1, [], .returned s)
    | .transportError _, r + 1 =>
        let rest := requestLoop outcomes (attempt + 1) r
        (rest.1 + 1, backoff attempt :: rest.2.1, rest.2.2)
    | .transportError m, 0 => (1, [], .raised m)

/-- `HttpClient._request_with_retry`: run the loop from attempt 0 with
`retries` further attempts allowed. -/
def requestWithRetry (outcomes : Nat → AttemptOutcome) (retries : Nat) :
    Nat × List ℚ × RequestResult :=
  requestLoop outcomes 0 retries

/-- The message of a transport-error outcome. -/
def msgOf : AttemptOutcome → String
  | .transportError m => m
  | .response _ => ""

/-- The status code of a response outcome. -/
def statusOf : AttemptOutcome → Nat
  | .response s => s
  | .transportError _ => 0

/-- The sleeps a full run of `retries + 1` failing attempts performs:
`0.1 * 2 ** attempt` for attempts `0 … retries - 1`. -/
def backoffList (retries : Nat) : List ℚ :=
  (List.range retries).map backoff

/-! ## Exception handlers (`core/exceptions.py`) -/

/-- An arbitrary uncaught Python exception reaching the catch-all
handler, identified by its type name and message. -/
structure PyException where
  ty : String
  message : String
deriving DecidableEq, Repr

/-- The Except envelope (`ExceptResponse`); the body shape is modelled
from the spec (`core/response.py` is absent from `src/`): it carries
the message and the HTTP status code. -/
structure ExceptEnvelope where
  message : String
  status_code : Nat
deriving DecidableEq, Repr

/-- `general_exception_handler`: error-log the exception with trace
info (server side only), respond with the generic internal-error
message and status 500.  The exception's content does not flow into
the response. -/
def general_exception_handler (_exc : PyException) : ExceptEnvelope :=
  { message := "服务器内部错误", status_code := 500 }

/-! ## Gateway monitoring (`services/gateway/utils/monitoring.py`)

`time.time()` values and uuid generation are inputs: a context is
created from the optional supplied trace id, two freshly generated
uuids (one used only when no trace id is supplied, one for the span)
and the current time. -/

structure MonitoringContext where
  trace_id : String
  span_id : String
  start_time : ℚ
  end_time : Option ℚ
  duration : Option ℚ
  tags : List (String × String)
  logs : List (ℚ × String)
deriving DecidableEq, Repr

/-- `MonitoringContext.__init__`. -/
def MonitoringContext.init (trace_id : Option String) (freshTraceId freshSpanId : String)
    (now : ℚ) : MonitoringContext :=
  { trace_id := trace_id.getD freshTraceId, span_id := freshSpanId,
    start_time := now, end_time := none, duration := none, tags := [], logs := [] }

/-- `MonitoringContext.finish`: stamp the end time and compute the
duration. -/
def MonitoringContext.finish (c : MonitoringContext) (now : ℚ) : MonitoringContext :=
  { c with end_time := some now, duration := some (now - c.start_time) }

/-- The manager's state: the `active_traces` dict, as an association
list keyed by trace id. -/
structure MonitoringManager where
  active_traces : List (String × MonitoringContext)
deriving DecidableEq, Repr

/-- Dict lookup `active_traces[tid]`. -/
def lookupTrace (m : MonitoringManager) (tid : String) : Option MonitoringContext :=
  (m.active_traces.find? (fun p => p.1 == tid)).map Prod.snd

/-- Dict assignment `active_traces[tid] = c`: replace an existing entry
in place, or append a new one. -/
def dictInsert (l : List (String × MonitoringContext)) (tid : String)
    (c : MonitoringContext) : List (String × MonitoringContext) :=
  if l.any (fun p => p.1 == tid) then
    l.map (fun p => if p.1 == tid then (tid, c) else p)
  else
    l ++ [(tid, c)]

/-- `MonitoringManager.start_trace`: build a fresh context and register
it under its trace id, overwriting any existing entry.  Returns the
context, the new manager state, and the log lines emitted (none:
`start_trace` logs nothing). -/
def MonitoringManager.start_trace (m : MonitoringManager) (trace_id : Option String)
    (freshTraceId freshSpanId : String) (now : ℚ) :
    MonitoringContext × MonitoringManager × List String :=
  let context := MonitoringContext.init trace_id freshTraceId freshSpanId now
  (context, { active_traces := dictInsert m.active_traces context.trace_id context }, [])

/-- `MonitoringManager.end_trace`: finish the context, drop its entry
from the table if present, emit the summary log line. -/
def MonitoringManager.end_trace (m : MonitoringManager) (c : MonitoringContext)
    (now : ℚ) : MonitoringManager × List String :=
  let finished := c.finish now
  ({ active_traces := m.active_traces.filter (fun p => !(p.1 == c.trace_id)) },
   ["Trace完成 - ID: " ++ finished.trace_id])

/-! ## Concrete fixtures used by the witnesses -/

/-- A construction instant with zero microseconds. -/
def dt0 : PyDateTime := ⟨2026, 1, 1, 0, 0, 0, 0⟩

/-- An update instant whose microsecond field is nonzero. -/
def dtMicro : PyDateTime := ⟨2026, 10, 12, 7, 30, 0, 123456⟩

/-- The protected superuser row. -/
def superRoot : User :=
  ⟨some 1, "2026-01-01 00:00:00", "2026-01-01 00:00:00", "root", "root",
   set_password_hash "rootpw", true, none, true⟩

/-- An enabled ordinary user. -/
def aliceRow : User :=
  ⟨some 2, "2026-01-01 00:00:00", "2026-01-01 00:00:00", "Alice", "alice",
   set_password_hash "alicepw", true, none, false⟩

/-- A disabled ordinary user. -/
def carolRow : User :=
  ⟨some 3, "2026-01-01 00:00:00", "2026-01-01 00:00:00", "Carol", "carol",
   set_password_hash "carolpw", false, none, false⟩

/-- A small user table. -/
def demoDB : DB := [superRoot, aliceRow, carolRow]

/-- Concrete settings. -/
def demoSettings : Settings := ⟨"secret", "HS256", 30, "bearer"⟩

/-- A request body for user creation. -/
def demoIn : UserInSchema := ⟨"Dave", "dave", "davepw", true, none⟩

/-- A request body carrying a new display name. -/
def renameIn : UserInSchema := ⟨"Alicia", "alice", "ignored", true, none⟩

/-- A request body carrying a new plaintext password. -/
def pwIn : UserInSchema := ⟨"Alice", "alice", "plaintext-secret", true, none⟩

/-- Only `name` present in the request body. -/
def nameOnly : FieldsSet := ⟨true, false, false, false, false⟩

/-- Only `password` present in the request body. -/
def pwOnly : FieldsSet := ⟨false, false, true, false, false⟩

/-- An environment where every attempt fails with a transport error,
each carrying its attempt index in the message. -/
def allTransport : Nat → AttemptOutcome :=
  fun i => .transportError ("boom" ++ toString i)

/-- An environment where every attempt returns HTTP 503. -/
def allServerErr : Nat → AttemptOutcome := fun _ => .response 503

/-- A context registered earlier under trace id `t1`. -/
def oldCtx : MonitoringContext := MonitoringContext.init (some "t1") "u0" "s0" 5

/-- A manager whose active-trace table already holds `t1`. -/
def demoManager : MonitoringManager := ⟨[("t1", oldCtx)]⟩

/-! ## Theorems -/

/-- Claim C2 — for every stored user with `is_superuser = true`, both
`PUT /user/{id}` and `DELETE /user/{id}` return the Error envelope
(superuser cannot be modified / deleted) and leave the whole table, in
particular that row, completely unchanged: no field is mutated, the
row is not deleted, and `updated_time` is not refreshed. -/
theorem superuser_update_delete_rejected (db : DB) (id : Nat) (u : User)
    (data : UserInSchema) (fs : FieldsSet) (now : PyDateTime)
    (hget : dbGet db id = some u) (hsu : u.is_superuser = true) :
    updateUser db id data fs now = (db, .error "超级管理员不允许修改") ∧
    deleteUser db id = (db, .error "超级管理员不允许删除") := by
  constructor <;> simp [updateUser, deleteUser, hget, hsu]

/-- Witness for C2: the superuser row with id 1 in the demo table. -/
theorem superuser_update_delete_rejected_witness :
    updateUser demoDB 1 renameIn nameOnly dtMicro = (demoDB, .error "超级管理员不允许修改") ∧
    deleteUser demoDB 1 = (demoDB, .error "超级管理员不允许删除") :=
  superuser_update_delete_rejected demoDB 1 superRoot renameIn nameOnly dtMicro
    (by rfl) (by rfl)

/-- Claim C5 — a login whose username matches no stored user, or
matches a user whose `status` is false (for any supplied password,
correct or not), yields the Error envelope; the result is the `error`
constructor, so no access token is created or returned. -/
theorem login_rejected_no_token (db : DB) (username password : String)
    (S : Settings) (now : Nat) (docs : Bool) :
    (db.find? (fun u => u.username == username) = none →
      login db username password S now docs = .error "用户不存在") ∧
    (∀ u, db.find? (fun u => u.username == username) = some u → u.status = false →
      login db username password S now docs = .error "用户已禁用") := by
  constructor
  · intro h
    simp [login, h]
  · intro u h hs
    simp [login, h, hs]

/-- Witness for C5: an unknown username, and the disabled user
`carol` supplied with her correct password. -/
theorem login_rejected_no_token_witness :
    login demoDB "bob" "whatever" demoSettings 1000 false = .error "用户不存在" ∧
    login demoDB "carol" "carolpw" demoSettings 1000 false = .error "用户已禁用" :=
  ⟨(login_rejected_no_token demoDB "bob" "whatever" demoSettings 1000 false).1 (by rfl),
   (login_rejected_no_token demoDB "carol" "carolpw" demoSettings 1000 false).2
     carolRow (by rfl) (by rfl)⟩

/-- Claim C6 — a login with correct credentials for an enabled user
returns a JWT output whose token subject is the username, whose expiry
is the issue time plus `ACCESS_TOKEN_EXPIRE_MINUTES` minutes, whose
`token_type` is the configured `TOKEN_TYPE` and whose `expires_in` is
`ACCESS_TOKEN_EXPIRE_MINUTES * 60` seconds (wrapped in the Success
envelope, or raw under a docs referer). -/
theorem login_success_token_shape (db : DB) (username password : String)
    (S : Settings) (now : Nat) (docs : Bool) (u : User)
    (hfind : db.find? (fun v => v.username == username) = some u)
    (hstatus : u.status = true)
    (hpw : verify_password password u.password = true) :
    u.username = username ∧
    login db username password S now docs =
      (let t : JWTOutSchema :=
        { access_token :=
            create_access_token
              { sub := username, exp := now + S.ACCESS_TOKEN_EXPIRE_MINUTES * 60 }
              S.SECRET_KEY S.ALGORITHM,
          token_type := S.TOKEN_TYPE,
          expires_in := S.ACCESS_TOKEN_EXPIRE_MINUTES * 60 };
       if docs then .raw t else .successEnvelope t) := by
  have hname : u.username = username := by
    have h := List.find?_some hfind
    simpa using h
  refine ⟨hname, ?_⟩
  simp [login, hfind, hstatus, hpw, hname]

/-- Witness for C6: `alice` logs in with her correct password. -/
theorem login_success_token_shape_witness :
    aliceRow.username = "alice" ∧
    login demoDB "alice" "alicepw" demoSettings 1000 false =
      (let t : JWTOutSchema :=
        { access_token :=
            create_access_token { sub := "alice", exp := 1000 + 30 * 60 }
              "secret" "HS256",
          token_type := "bearer",
          expires_in := 30 * 60 };
       if false then .raw t else .successEnvelope t) :=
  login_success_token_shape demoDB "alice" "alicepw" demoSettings 1000 false
    aliceRow (by rfl) (by rfl) (by rfl)

/-- Claim C7 — creating a user whose username equals the username of a
stored user returns the Error envelope and inserts nothing; otherwise
one new row is appended whose stored password is the hash of the
supplied one, and the response is the created user rendered through
`UserOutSchema`, which carries no password field. -/
theorem create_duplicate_rejected_else_hashed (db : DB) (data : UserInSchema)
    (nextId : Nat) (now : PyDateTime) :
    (∀ u, db.find? (fun v => v.username == data.username) = some u →
      createUser db data nextId now =
        (db, .error ("账号 " ++ data.username ++ " 已存在"))) ∧
    (db.find? (fun v => v.username == data.username) = none →
      createUser db data nextId now =
        (db ++ [{ id := some nextId,
                  created_time := strftimeYmdHms now,
                  updated_time := strftimeYmdHms now,
                  name := data.name, username := data.username,
                  password := set_password_hash data.password,
                  status := data.status, description := data.description,
                  is_superuser := false }],
         .success
           { id := some nextId,
             created_time := strftimeYmdHms now,
             updated_time := strftimeYmdHms now,
             name := data.name, username := data.username,
             status := data.status, description := data.description,
             is_superuser := false })) := by
  constructor
  · intro u h
    simp [createUser, h]
  · intro h
    simp [createUser, h, UserOutSchema.fromUser]

/-- Witness for C7: creating `alice` again is rejected with the table
unchanged; creating the fresh username `dave` appends one hashed row. -/
theorem create_duplicate_rejected_else_hashed_witness :
    createUser demoDB ⟨"Alice2", "alice", "x", true, none⟩ 4 dt0 =
      (demoDB, .error "账号 alice 已存在") ∧
    createUser demoDB demoIn 4 dt0 =
      (demoDB ++ [{ id := some 4,
                    created_time := strftimeYmdHms dt0,
                    updated_time := strftimeYmdHms dt0,
                    name := "Dave", username := "dave",
                    password := set_password_hash "davepw",
                    status := true, description := none,
                    is_superuser := false }],
       .success
         { id := some 4,
           created_time := strftimeYmdHms dt0,
           updated_time := strftimeYmdHms dt0,
           name := "Dave", username := "dave",
           status := true, description := none,
           is_superuser := false }) :=
  ⟨(create_duplicate_rejected_else_hashed demoDB ⟨"Alice2", "alice", "x", true, none⟩ 4 dt0).1
     aliceRow (by rfl),
   (create_duplicate_rejected_else_hashed demoDB demoIn 4 dt0).2 (by rfl)⟩

/-- Claim C9 — any two uncaught exceptions with different types and
different messages produce literally identical responses from the
catch-all handler: the generic internal-server-error body and status
500, independent of the content of the exception. -/
theorem general_handler_uniform (e1 e2 : PyException)
    (hty : e1.ty ≠ e2.ty) (hmsg : e1.message ≠ e2.message) :
    general_exception_handler e1 = general_exception_handler e2 ∧
    (general_exception_handler e1).message = "服务器内部错误" ∧
    (general_exception_handler e1).status_code = 500 :=
  ⟨rfl, rfl, rfl⟩

/-- Witness for C9: a `ValueError` and a `KeyError` with unrelated
messages. -/
theorem general_handler_uniform_witness :
    general_exception_handler ⟨"ValueError", "bad input"⟩ =
      general_exception_handler ⟨"KeyError", "missing"⟩ ∧
    (general_exception_handler ⟨"ValueError", "bad input"⟩).message = "服务器内部错误" ∧
    (general_exception_handler ⟨"ValueError", "bad input"⟩).status_code = 500 :=
  general_handler_uniform ⟨"ValueError", "bad input"⟩ ⟨"KeyError", "missing"⟩
    (by decide) (by decide)

/-- Claim C1 — refuted on the update path: `create` does hash the
supplied password before persistence (first conjunct), but
`PUT /user/{id}` with a password field in the body merges the raw
request value, so the stored credential is the plaintext input itself
and not its hash (second and third conjuncts evaluate the code on a
concrete table). -/
theorem update_stores_plaintext_password :
    ((createUser [] pwIn 1 dt0).1.map User.password =
      [set_password_hash "plaintext-secret"]) ∧
    ((dbGet (updateUser demoDB 2 pwIn pwOnly dtMicro).1 2).map User.password =
      some "plaintext-secret") ∧
    "plaintext-secret" ≠ set_password_hash "plaintext-secret" := by
  refine ⟨by rfl, by rfl, by decide⟩

/-- Claim C1, amended part — every path through `create` persists
`set_password_hash` of the supplied password, never the plaintext
(the spec-level hashing invariant holds for creation). -/
theorem create_always_hashes (db : DB) (data : UserInSchema) (nextId : Nat)
    (now : PyDateTime) :
    ∀ u ∈ (createUser db data nextId now).1, u ∈ db ∨
      u.password = set_password_hash data.password := by
  intro u hu
  unfold createUser at hu
  cases hfind : db.find? (fun v => v.username == data.username) with
  | some w => rw [hfind] at hu; exact Or.inl hu
  | none =>
      rw [hfind] at hu
      simp only [List.mem_append, List.mem_singleton] at hu
      rcases hu with h | h
      · exact Or.inl h
      · subst h; exact Or.inr rfl

/-- Witness for the amended C1 creation invariant: the row created for
`dave` carries the hash of `davepw`. -/
theorem create_always_hashes_witness :
    ∀ u ∈ (createUser [] demoIn 4 dt0).1, u ∈ ([] : DB) ∨
      u.password = set_password_hash "davepw" :=
  create_always_hashes [] demoIn 4 dt0

/-- Every character emitted by `Nat.toDigitsCore` in base 10 is a
decimal digit, provided the accumulator already holds only digits. -/
theorem toDigitsCore_digits : ∀ (f n : Nat) (ds : List Char),
    (∀ c ∈ ds, c.isDigit = true) → ∀ c ∈ Nat.toDigitsCore 10 f n ds, c.isDigit = true := by
  intro f
  induction f with
  | zero =>
      intro n ds hds c hc
      rw [Nat.toDigitsCore] at hc
      exact hds c hc
  | succ f ih =>
      intro n ds hds c hc
      rw [Nat.toDigitsCore] at hc
      have hdigit : (Nat.digitChar (n % 10)).isDigit = true := by
        have h10 : n % 10 < 10 := Nat.mod_lt _ (by omega)
        have hall : ∀ m, m < 10 → (Nat.digitChar m).isDigit = true := by decide
        exact hall _ h10
      by_cases h : n / 10 = 0
      · rw [if_pos h] at hc
        rcases List.mem_cons.mp hc with h1 | h1
        · subst h1; exact hdigit
        · exact hds c h1
      · rw [if_neg h] at hc
        refine ih (n / 10) (Nat.digitChar (n % 10) :: ds) ?_ c hc
        intro x hx
        rcases List.mem_cons.mp hx with h1 | h1
        · subst h1; exact hdigit
        · exact hds x h1

/-- Every character of the decimal rendering of a natural number is a
digit. -/
theorem toString_nat_digits (n : Nat) : ∀ c ∈ (toString n).toList, c.isDigit = true := by
  intro c hc
  have h : (toString n).toList = Nat.toDigitsCore 10 (n + 1) n [] := rfl
  rw [h] at hc
  exact toDigitsCore_digits (n + 1) n [] (by simp) c hc

/-- The characters of a zero-padded number. -/
theorem padNum_toList (w n : Nat) :
    (padNum w n).toList =
      List.replicate (w - (toString n).length) '0' ++ (toString n).toList := by
  simp [padNum, String.toList, String.data_append]

/-- A zero-padded number consists of digit characters only. -/
theorem padNum_digits (w n : Nat) : ∀ c ∈ (padNum w n).toList, c.isDigit = true := by
  intro c hc
  rw [padNum_toList] at hc
  rcases List.mem_append.mp hc with h | h
  · have := List.eq_of_mem_replicate h
    subst this
    decide
  · exact toString_nat_digits n c h

/-- A number below `10 ^ w` zero-padded to width `w` has exactly `w`
characters. -/
theorem padNum_length (w n : Nat) (hw : 0 < w) (h : n < 10 ^ w) :
    (padNum w n).toList.length = w := by
  have hlen : (toString n).length ≤ w := Nat.repr_length n w hw h
  rw [padNum_toList]
  have : (toString n).toList.length = (toString n).length := rfl
  simp [this]
  omega

/-- A string built from a 4-character digit block and five 2-character
digit blocks with the `-`, space and `:` separators passes the
timestamp format check. -/
theorem isTimestampFormat_parts (l4 a b c d e : List Char)
    (h4 : l4.length = 4) (ha : a.length = 2) (hb : b.length = 2)
    (hc : c.length = 2) (hd : d.length = 2) (he : e.length = 2)
    (d4 : ∀ ch ∈ l4, ch.isDigit = true) (da : ∀ ch ∈ a, ch.isDigit = true)
    (db : ∀ ch ∈ b, ch.isDigit = true) (dc : ∀ ch ∈ c, ch.isDigit = true)
    (dd : ∀ ch ∈ d, ch.isDigit = true) (de : ∀ ch ∈ e, ch.isDigit = true) :
    isTimestampFormat
      (String.mk (l4 ++ '-' :: (a ++ '-' :: (b ++ ' ' ::
        (c ++ ':' :: (d ++ ':' :: e)))))) = true := by
  rcases l4 with _ | ⟨y1, t⟩
  · exfalso; simp at h4
  have h3 : t.length = 3 := by simpa using h4
  obtain ⟨y2, y3, y4, rfl⟩ := List.length_eq_three.mp h3
  obtain ⟨a1, a2, rfl⟩ := List.length_eq_two.mp ha
  obtain ⟨b1, b2, rfl⟩ := List.length_eq_two.mp hb
  obtain ⟨c1, c2, rfl⟩ := List.length_eq_two.mp hc
  obtain ⟨d1, d2, rfl⟩ := List.length_eq_two.mp hd
  obtain ⟨e1, e2, rfl⟩ := List.length_eq_two.mp he
  simp only [List.mem_cons, List.not_mem_nil, or_false, forall_eq_or_imp,
    forall_eq] at d4 da db dc dd de
  obtain ⟨hy1, hy2, hy3, hy4⟩ := d4
  obtain ⟨ha1, ha2⟩ := da
  obtain ⟨hb1, hb2⟩ := db
  obtain ⟨hc1, hc2⟩ := dc
  obtain ⟨hd1, hd2⟩ := dd
  obtain ⟨he1, he2⟩ := de
  simp [isTimestampFormat, String.toList, hy1, hy2, hy3, hy4, ha1, ha2,
    hb1, hb2, hc1, hc2, hd1, hd2, he1, he2]

/-- The `strftime("%Y-%m-%d %H:%M:%S")` rendering of any instant whose
calendar fields have their real-world digit widths has the exact
`YYYY-MM-DD HH:MM:SS` shape. -/
theorem strftime_isTimestampFormat (now : PyDateTime)
    (hy : now.year < 10000) (hmo : now.month < 100) (hd : now.day < 100)
    (hh : now.hour < 100) (hmi : now.minute < 100) (hs : now.second < 100) :
    isTimestampFormat (strftimeYmdHms now) = true := by
  have hsplit : (strftimeYmdHms now).toList =
      (padNum 4 now.year).toList ++ '-' :: ((padNum 2 now.month).toList ++ '-' ::
      ((padNum 2 now.day).toList ++ ' ' :: ((padNum 2 now.hour).toList ++ ':' ::
      ((padNum 2 now.minute).toList ++ ':' :: (padNum 2 now.second).toList)))) := by
    simp [strftimeYmdHms, String.toList, String.data_append]
  rw [show strftimeYmdHms now = String.mk ((strftimeYmdHms now).toList) from rfl, hsplit]
  exact isTimestampFormat_parts _ _ _ _ _ _
    (padNum_length 4 now.year (by omega) (by norm_num; omega))
    (padNum_length 2 now.month (by omega) (by norm_num; omega))
    (padNum_length 2 now.day (by omega) (by norm_num; omega))
    (padNum_length 2 now.hour (by omega) (by norm_num; omega))
    (padNum_length 2 now.minute (by omega) (by norm_num; omega))
    (padNum_length 2 now.second (by omega) (by norm_num; omega))
    (padNum_digits 4 now.year) (padNum_digits 2 now.month)
    (padNum_digits 2 now.day) (padNum_digits 2 now.hour)
    (padNum_digits 2 now.minute) (padNum_digits 2 now.second)

/-- Claim C8 — refuted on the update path: the `Base` default
factories format construction timestamps as `YYYY-MM-DD HH:MM:SS`
(first two conjuncts), but `PUT /user/{id}` writes
`str(datetime.now())`, which renders a nonzero microsecond field as a
`.ffffff` suffix, so the persisted `updated_time` leaves the claimed
format (last two conjuncts evaluate the code at an update instant with
microseconds 123456). -/
theorem update_timestamp_format_broken :
    isTimestampFormat (strftimeYmdHms dt0) = true ∧
    isTimestampFormat (strftimeYmdHms dtMicro) = true ∧
    ((dbGet (updateUser demoDB 2 renameIn nameOnly dtMicro).1 2).map User.updated_time =
      some "2026-10-12 07:30:00.123456") ∧
    isTimestampFormat "2026-10-12 07:30:00.123456" = false := by
  refine ⟨by decide, by decide, by rfl, by decide⟩

/-- Claim C8, amended part — at construction both timestamps are
`strftime("%Y-%m-%d %H:%M:%S")` of the construction instant, which has
the exact `YYYY-MM-DD HH:MM:SS` shape whenever the calendar fields
have their real-world digit widths. -/
theorem construction_timestamps_formatted (db : DB) (data : UserInSchema)
    (nextId : Nat) (now : PyDateTime)
    (hy : now.year < 10000) (hmo : now.month < 100)
    (hd : now.day < 100) (hh : now.hour < 100) (hmi : now.minute < 100)
    (hs : now.second < 100) :
    ∀ u ∈ (createUser db data nextId now).1, u ∈ db ∨
      (isTimestampFormat u.created_time = true ∧
       isTimestampFormat u.updated_time = true) := by
  intro u hu
  unfold createUser at hu
  cases hfind : db.find? (fun v => v.username == data.username) with
  | some w => rw [hfind] at hu; exact Or.inl hu
  | none =>
      rw [hfind] at hu
      simp only [List.mem_append, List.mem_singleton] at hu
      rcases hu with h | h
      · exact Or.inl h
      · subst h
        refine Or.inr ⟨?_, ?_⟩ <;>
          exact strftime_isTimestampFormat now hy hmo hd hh hmi hs

/-- Witness for the amended C8 construction invariant, at the concrete
construction instant `dt0`. -/
theorem construction_timestamps_formatted_witness :
    ∀ u ∈ (createUser [] demoIn 4 dt0).1, u ∈ ([] : DB) ∨
      (isTimestampFormat u.created_time = true ∧
       isTimestampFormat u.updated_time = true) :=
  construction_timestamps_formatted [] demoIn 4 dt0 (by decide) (by decide)
    (by decide) (by decide) (by decide) (by decide)

/-- Claim C4 — a `PUT /user/{id}` whose body carries only `name`, on
an existing non-superuser row `u`, rewrites exactly that row to
`u` with a new `name` and `updated_time`; every other field of the row
and every other row of the table are unchanged, and the response is
the updated row rendered through `UserOutSchema`. -/
theorem update_name_only_frame (db : DB) (id : Nat) (u : User)
    (data : UserInSchema) (now : PyDateTime)
    (hget : dbGet db id = some u) (hsu : u.is_superuser = false) :
    updateUser db id data nameOnly now =
      (db.map (fun v => if v.id == some id then
          { u with name := data.name, updated_time := pyStrDatetime now } else v),
       .success (UserOutSchema.fromUser
          { u with name := data.name, updated_time := pyStrDatetime now })) ∧
    ({ u with name := data.name, updated_time := pyStrDatetime now } : User).username = u.username ∧
    ({ u with name := data.name, updated_time := pyStrDatetime now } : User).password = u.password ∧
    ({ u with name := data.name, updated_time := pyStrDatetime now } : User).status = u.status ∧
    ({ u with name := data.name, updated_time := pyStrDatetime now } : User).description = u.description ∧
    ({ u with name := data.name, updated_time := pyStrDatetime now } : User).is_superuser = u.is_superuser ∧
    ({ u with name := data.name, updated_time := pyStrDatetime now } : User).id = u.id ∧
    ({ u with name := data.name, updated_time := pyStrDatetime now } : User).created_time = u.created_time ∧
    (∀ v ∈ db, v.id ≠ some id → v ∈ (updateUser db id data nameOnly now).1) := by
  have hmerge : sqlmodelUpdate u data nameOnly = { u with name := data.name } := by
    simp [sqlmodelUpdate, nameOnly]
  have hmain : updateUser db id data nameOnly now =
      (db.map (fun v => if v.id == some id then
          { u with name := data.name, updated_time := pyStrDatetime now } else v),
       .success (UserOutSchema.fromUser
          { u with name := data.name, updated_time := pyStrDatetime now })) := by
    simp [updateUser, hget, hsu, hmerge, dbReplace]
  refine ⟨hmain, rfl, rfl, rfl, rfl, rfl, rfl, rfl, ?_⟩
  intro v hv hne
  rw [hmain]
  refine List.mem_map.mpr ⟨v, hv, ?_⟩
  have hb : (v.id == some id) = false := beq_eq_false_iff_ne.mpr hne
  rw [hb]
  rfl

/-- Witness for C4: renaming the ordinary user `alice` (row id 2) from
the demo table. -/
theorem update_name_only_frame_witness :
    updateUser demoDB 2 renameIn nameOnly dtMicro =
      (demoDB.map (fun v => if v.id == some 2 then
          { aliceRow with name := "Alicia", updated_time := pyStrDatetime dtMicro } else v),
       .success (UserOutSchema.fromUser
          { aliceRow with name := "Alicia", updated_time := pyStrDatetime dtMicro })) ∧
    ({ aliceRow with name := "Alicia", updated_time := pyStrDatetime dtMicro } : User).username = aliceRow.username ∧
    ({ aliceRow with name := "Alicia", updated_time := pyStrDatetime dtMicro } : User).password = aliceRow.password ∧
    ({ aliceRow with name := "Alicia", updated_time := pyStrDatetime dtMicro } : User).status = aliceRow.status ∧
    ({ aliceRow with name := "Alicia", updated_time := pyStrDatetime dtMicro } : User).description = aliceRow.description ∧
    ({ aliceRow with name := "Alicia", updated_time := pyStrDatetime dtMicro } : User).is_superuser = aliceRow.is_superuser ∧
    ({ aliceRow with name := "Alicia", updated_time := pyStrDatetime dtMicro } : User).id = aliceRow.id ∧
    ({ aliceRow with name := "Alicia", updated_time := pyStrDatetime dtMicro } : User).created_time = aliceRow.created_time ∧
    (∀ v ∈ demoDB, v.id ≠ some 2 → v ∈ (updateUser demoDB 2 renameIn nameOnly dtMicro).1) :=
  update_name_only_frame demoDB 2 aliceRow renameIn dtMicro (by rfl) (by rfl)

/-- From attempt `attempt` with `remaining` attempts still allowed, if
every attempt up to the last one fails with a transport error, the
loop makes `remaining + 1` requests, sleeps `0.1 * 2 ** i` seconds
after each non-final attempt `i`, and raises the last error. -/
theorem requestLoop_all_transport (outcomes : Nat → AttemptOutcome) :
    ∀ (remaining attempt : Nat),
    (∀ i, attempt ≤ i → i ≤ attempt + remaining →
      ∃ m, outcomes i = .transportError m) →
    requestLoop outcomes attempt remaining =
      (remaining + 1, (List.range' attempt remaining).map backoff,
       .raised (msgOf (outcomes (attempt + remaining)))) := by
  intro remaining
  induction remaining with
  | zero =>
      intro attempt h
      obtain ⟨m, hm⟩ := h attempt le_rfl (by omega)
      rw [requestLoop.eq_def]
      simp [hm, msgOf, List.range']
  | succ r ih =>
      intro attempt h
      obtain ⟨m, hm⟩ := h attempt le_rfl (by omega)
      have hstep := ih (attempt + 1) (fun i h1 h2 => h i (by omega) (by omega))
      rw [requestLoop.eq_def]
      simp only [hm]
      rw [hstep]
      have heq : attempt + 1 + r = attempt + (r + 1) := by omega
      rw [List.range'_succ, heq]
      rfl

/-- From attempt `attempt` with `remaining` attempts still allowed, if
every attempt yields a 5xx response, the loop makes `remaining + 1`
requests with the same backoff and returns the last response without
raising. -/
theorem requestLoop_all_5xx (outcomes : Nat → AttemptOutcome) :
    ∀ (remaining attempt : Nat),
    (∀ i, attempt ≤ i → i ≤ attempt + remaining →
      ∃ s, 500 ≤ s ∧ outcomes i = .response s) →
    requestLoop outcomes attempt remaining =
      (remaining + 1, (List.range' attempt remaining).map backoff,
       .returned (statusOf (outcomes (attempt + remaining)))) := by
  intro remaining
  induction remaining with
  | zero =>
      intro attempt h
      obtain ⟨s, hs, hm⟩ := h attempt le_rfl (by omega)
      rw [requestLoop.eq_def]
      simp [hm, statusOf, List.range', if_pos hs]
  | succ r ih =>
      intro attempt h
      obtain ⟨s, hs, hm⟩ := h attempt le_rfl (by omega)
      have hstep := ih (attempt + 1) (fun i h1 h2 => h i (by omega) (by omega))
      rw [requestLoop.eq_def]
      simp only [hm, if_pos hs]
      rw [hstep]
      have heq : attempt + 1 + r = attempt + (r + 1) := by omega
      rw [List.range'_succ, heq]
      rfl

/-- Claim C3 — with retry count `retries`: when every attempt fails
with a transport error, `_request_with_retry` makes exactly
`retries + 1` requests with backoff sleeps `0.1 * 2 ** attempt`
between them and re-raises the last transport error; when every
attempt yields a 5xx response, the same number of requests and sleeps
happen but the last response is returned without raising; for the
default `retries = 3` the sleeps are 0.1, 0.2 and 0.4 seconds. -/
theorem retry_policy (outcomes : Nat → AttemptOutcome) (retries : Nat) :
    ((∀ i, i ≤ retries → ∃ m, outcomes i = .transportError m) →
      requestWithRetry outcomes retries =
        (retries + 1, backoffList retries, .raised (msgOf (outcomes retries)))) ∧
    ((∀ i, i ≤ retries → ∃ s, 500 ≤ s ∧ outcomes i = .response s) →
      requestWithRetry outcomes retries =
        (retries + 1, backoffList retries, .returned (statusOf (outcomes retries)))) ∧
    backoffList 3 = [1 / 10, 1 / 5, 2 / 5] := by
  refine ⟨?_, ?_, by norm_num [backoffList, List.range_succ, backoff]⟩
  · intro h
    have hrun := requestLoop_all_transport outcomes retries 0
      (fun i h1 h2 => h i (by omega))
    simpa [requestWithRetry, backoffList, List.range_eq_range'] using hrun
  · intro h
    have hrun := requestLoop_all_5xx outcomes retries 0
      (fun i h1 h2 => h i (by omega))
    simpa [requestWithRetry, backoffList, List.range_eq_range'] using hrun

/-- Witness for C3: all-transport-error and all-503 environments with
the default retry count 3. -/
theorem retry_policy_witness :
    requestWithRetry allTransport 3 =
      (4, [1 / 10, 1 / 5, 2 / 5], .raised "boom3") ∧
    requestWithRetry allServerErr 3 =
      (4, [1 / 10, 1 / 5, 2 / 5], .returned 503) := by
  have hb : backoffList 3 = [1 / 10, 1 / 5, 2 / 5] := by
    norm_num [backoffList, List.range_succ, backoff]
  constructor
  · have h := (retry_policy allTransport 3).1 (fun i _ => ⟨"boom" ++ toString i, rfl⟩)
    rw [h, hb]
    rfl
  · have h := (retry_policy allServerErr 3).2.1 (fun i _ => ⟨503, by omega, rfl⟩)
    rw [h, hb]
    rfl

/-- After `dict[tid] = c` on a table that already holds an entry whose
key is `tid` (or not), looking up `tid` yields `c`. -/
theorem find?_map_replace (tid : String) (c : MonitoringContext) :
    ∀ l : List (String × MonitoringContext), l.any (fun p => p.1 == tid) = true →
    ((((l.map (fun p => if p.1 == tid then (tid, c) else p)).find?
      (fun p => p.1 == tid)).map Prod.snd) = some c) := by
  intro l
  induction l with
  | nil => intro h; simp at h
  | cons a t ih =>
      intro h
      by_cases ha : (a.1 == tid) = true
      · simp only [List.map_cons, if_pos ha]
        rw [List.find?_cons_of_pos _ (by simp)]
        rfl
      · have ha2 : (a.1 == tid) = false := by simpa using ha
        simp [ha2] at h
        simp only [List.map_cons, if_neg (by simp [ha2] : ¬(a.1 == tid) = true)]
        rw [List.find?_cons_of_neg _ (by simp [ha2])]
        exact ih (by simpa using h)

/-- `dict[tid] = c` makes `tid` map to `c`. -/
theorem find?_dictInsert_self (tid : String) (c : MonitoringContext)
    (l : List (String × MonitoringContext)) :
    (((dictInsert l tid c).find? (fun p => p.1 == tid)).map Prod.snd) = some c := by
  unfold dictInsert
  by_cases h : l.any (fun p => p.1 == tid) = true
  · rw [if_pos h]
    exact find?_map_replace tid c l h
  · rw [if_neg h]
    have hnone : l.find? (fun p => p.1 == tid) = none := by
      rw [List.find?_eq_none]
      intro x hx hpx
      exact h (List.any_eq_true.mpr ⟨x, hx, hpx⟩)
    rw [List.find?_append, hnone]
    simp [List.find?]

/-- `dict[tid] = c` leaves every other key unchanged. -/
theorem find?_dictInsert_ne (tid k : String) (c : MonitoringContext) (hk : k ≠ tid)
    (l : List (String × MonitoringContext)) :
    (dictInsert l tid c).find? (fun p => p.1 == k) = l.find? (fun p => p.1 == k) := by
  have htk : (tid == k) = false := beq_eq_false_iff_ne.mpr (fun hkk => hk hkk.symm)
  unfold dictInsert
  by_cases h : l.any (fun p => p.1 == tid) = true
  · rw [if_pos h]
    clear h
    induction l with
    | nil => rfl
    | cons a t ih =>
        by_cases ha : (a.1 == tid) = true
        · have haeq : a.1 = tid := by simpa using ha
          have hak : (a.1 == k) = false := by rw [haeq]; exact htk
          simp only [List.map_cons, if_pos ha, List.find?_cons]
          simp only [htk, hak]
          exact ih
        · simp only [List.map_cons, if_neg ha, List.find?_cons]
          by_cases hak : (a.1 == k) = true
          · simp [hak]
          · have hak2 : (a.1 == k) = false := by simpa using hak
            simp only [hak2]
            exact ih
  · rw [if_neg h]
    rw [List.find?_append]
    have hlast : ([(tid, c)].find? (fun p => p.1 == k)) = none := by
      simp [List.find?, htk]
    rw [hlast]
    cases l.find? (fun p => p.1 == k) <;> rfl

/-- Claim C10 — calling `start_trace` with a trace id that is already
present in the active-trace table builds a brand-new, unfinalized
context (fresh span id and start time, no end time, no duration, no
tags, no logs), registers it under that id in place of the earlier
context, leaves every other entry untouched, and emits no log line:
the earlier context is silently discarded, never finished and never
summarized. -/
theorem start_trace_replaces_existing (m : MonitoringManager) (tid : String)
    (old : MonitoringContext) (ft fs : String) (now : ℚ)
    (hold : lookupTrace m tid = some old) :
    (m.start_trace (some tid) ft fs now).1 =
      { trace_id := tid, span_id := fs, start_time := now,
        end_time := none, duration := none, tags := [], logs := [] } ∧
    lookupTrace (m.start_trace (some tid) ft fs now).2.1 tid =
      some (m.start_trace (some tid) ft fs now).1 ∧
    (∀ k, k ≠ tid →
      lookupTrace (m.start_trace (some tid) ft fs now).2.1 k = lookupTrace m k) ∧
    (m.start_trace (some tid) ft fs now).2.2 = ([] : List String) := by
  refine ⟨rfl, ?_, ?_, rfl⟩
  · exact find?_dictInsert_self tid _ m.active_traces
  · intro k hk
    exact congrArg (Option.map Prod.snd) (find?_dictInsert_ne tid k _ hk m.active_traces)

/-- Witness for C10: re-starting trace `t1` on a manager that already
tracks it. -/
theorem start_trace_replaces_existing_witness :
    (demoManager.start_trace (some "t1") "u9" "s9" 8).1 =
      { trace_id := "t1", span_id := "s9", start_time := 8,
        end_time := none, duration := none, tags := [], logs := [] } ∧
    lookupTrace (demoManager.start_trace (some "t1") "u9" "s9" 8).2.1 "t1" =
      some (demoManager.start_trace (some "t1") "u9" "s9" 8).1 ∧
    (∀ k, k ≠ "t1" →
      lookupTrace (demoManager.start_trace (some "t1") "u9" "s9" 8).2.1 k =
        lookupTrace demoManager k) ∧
    (demoManager.start_trace (some "t1") "u9" "s9" 8).2.2 = ([] : List String) :=
  start_trace_replaces_existing demoManager "t1" oldCtx "u9" "s9" 8 (by rfl)

end FastCloud
